import Mathlib

/-!
Verification of the huayi-providers repository against its specification.

The development shallowly embeds the Python sources:
  * `quantum_volume.py` — heavy-output extraction, the quantum-volume
    threshold inequality, and the aggregation loop of `test_qv`;
  * `utils.py` — `common_basis_gates` and `finite_connected_map`;
  * `backend_build.py` — the `build_from_file` class with its three
    build steps and their error handling.

Python dictionaries are embedded as association lists, machine floats as
real (or rational) numbers, and the file system together with the
external SDK as explicit oracles passed to the embedded functions.
-/

namespace QuantumVolume

/-- Ordering used by `sorted(counts.keys(), key=counts.get)`: dictionary
entries are compared by their stored value.  The embedding keeps each key
paired with its value, where Python sorts the keys and looks the values up
in the dictionary. -/
def leVal (a b : String × ℚ) : Prop := a.2 ≤ b.2

instance : DecidableRel leVal := fun a b => inferInstanceAs (Decidable (a.2 ≤ b.2))

instance : IsTotal (String × ℚ) leVal := ⟨fun a b => le_total a.2 b.2⟩

instance : IsTrans (String × ℚ) leVal := ⟨fun _ _ _ h1 h2 => le_trans h1 h2⟩

/-- Embedding of line 25 of `quantum_volume.py`:
`sorted_counts = sorted(counts.keys(), key=counts.get)`.
Python's `sorted` is a stable sort; `List.insertionSort` is stable. -/
def sorted_counts (counts : List (String × ℚ)) : List (String × ℚ) :=
  List.insertionSort leVal counts

/-- Embedding of `get_heavy_outputs` (`quantum_volume.py`, lines 17-28):
sort the entries by value and keep the slice `[len//2 :]`. -/
def get_heavy_outputs (counts : List (String × ℚ)) : List (String × ℚ) :=
  (sorted_counts counts).drop ((sorted_counts counts).length / 2)

/-- Modelled from the spec: the median of a finite multiset of
probabilities, as used by the glossary sentence on heavy outputs (the
code itself never computes a median).  Middle element for odd length,
average of the two middle elements for even length. -/
def median (l : List ℚ) : ℚ :=
  if l.length % 2 = 1 then
    (List.insertionSort (fun a b : ℚ => a ≤ b) l).getD (l.length / 2) 0
  else
    ((List.insertionSort (fun a b : ℚ => a ≤ b) l).getD (l.length / 2 - 1) 0 +
     (List.insertionSort (fun a b : ℚ => a ≤ b) l).getD (l.length / 2) 0) / 2

theorem length_sorted_counts (counts : List (String × ℚ)) :
    (sorted_counts counts).length = counts.length :=
  (List.perm_insertionSort leVal counts).length_eq

theorem sorted_sorted_counts (counts : List (String × ℚ)) :
    List.Sorted leVal (sorted_counts counts) :=
  List.sorted_insertionSort leVal counts

/-- Claim C1: for a non-empty counts dictionary with n keys,
`get_heavy_outputs` returns exactly the entries at positions n/2 .. n-1 of
the list sorted in ascending order of count — hence (n+1)/2 entries — and
every returned entry has a count at least the count of every excluded
entry. -/
theorem heavy_outputs_upper_half (counts : List (String × ℚ)) (h : counts ≠ []) :
    (get_heavy_outputs counts).length = (counts.length + 1) / 2 ∧
    (∀ k : ℕ, (get_heavy_outputs counts)[k]? =
      (sorted_counts counts)[counts.length / 2 + k]?) ∧
    (∀ x ∈ get_heavy_outputs counts,
      ∀ y ∈ (sorted_counts counts).take (counts.length / 2), y.2 ≤ x.2) := by
  have hlen := length_sorted_counts counts
  have hne : counts.length ≠ 0 := fun h0 => h (List.length_eq_zero.mp h0)
  refine ⟨?_, ?_, ?_⟩
  · rw [get_heavy_outputs, List.length_drop, hlen]
    omega
  · intro k
    rw [get_heavy_outputs, List.getElem?_drop, hlen]
  · intro x hx y hy
    have hs := sorted_sorted_counts counts
    rw [List.Sorted, ← List.take_append_drop (counts.length / 2) (sorted_counts counts),
      List.pairwise_append] at hs
    have hx' : x ∈ (sorted_counts counts).drop (counts.length / 2) := by
      rw [get_heavy_outputs, hlen] at hx
      exact hx
    exact hs.2.2 y hy x hx'

/-- Witness for C1 at the concrete dictionary
`[("00", 1), ("01", 3), ("10", 2)]`. -/
theorem heavy_outputs_upper_half_witness :
    ([(("00" : String), (1 : ℚ)), ("01", 3), ("10", 2)] ≠
      ([] : List (String × ℚ))) ∧
    ((get_heavy_outputs [("00", 1), ("01", 3), ("10", 2)]).length =
      ([(("00" : String), (1 : ℚ)), ("01", 3), ("10", 2)].length + 1) / 2 ∧
    (∀ k : ℕ, (get_heavy_outputs [("00", 1), ("01", 3), ("10", 2)])[k]? =
      (sorted_counts [("00", 1), ("01", 3), ("10", 2)])[
        [(("00" : String), (1 : ℚ)), ("01", 3), ("10", 2)].length / 2 + k]?) ∧
    (∀ x ∈ get_heavy_outputs [("00", 1), ("01", 3), ("10", 2)],
      ∀ y ∈ (sorted_counts [("00", 1), ("01", 3), ("10", 2)]).take
        ([(("00" : String), (1 : ℚ)), ("01", 3), ("10", 2)].length / 2),
        y.2 ≤ x.2)) :=
  ⟨by decide, heavy_outputs_upper_half _ (by decide)⟩

theorem sorted_counts_map_snd (counts : List (String × ℚ)) :
    (sorted_counts counts).map Prod.snd =
      List.insertionSort (fun a b : ℚ => a ≤ b) (counts.map Prod.snd) := by
  have hanti : IsAntisymm ℚ (fun a b : ℚ => a ≤ b) := ⟨fun a b h1 h2 => le_antisymm h1 h2⟩
  exact @List.eq_of_perm_of_sorted ℚ (fun a b : ℚ => a ≤ b) hanti _ _
    (((List.perm_insertionSort leVal counts).map Prod.snd).trans
      (List.perm_insertionSort _ (counts.map Prod.snd)).symm)
    (List.Pairwise.map Prod.snd (fun a b hab => hab) (sorted_sorted_counts counts))
    (List.sorted_insertionSort _ _)

theorem median_le_upper (l : List ℚ) (h : l ≠ []) (k : ℕ)
    (hmk : l.length / 2 ≤ k) (hk : k < l.length) :
    median l ≤ (List.insertionSort (fun a b : ℚ => a ≤ b) l).getD k 0 := by
  have hlen : (List.insertionSort (fun a b : ℚ => a ≤ b) l).length = l.length :=
    List.length_insertionSort _ _
  have hne : l.length ≠ 0 := fun h0 => h (List.length_eq_zero.mp h0)
  have hsorted : List.Sorted (fun a b : ℚ => a ≤ b)
      (List.insertionSort (fun a b : ℚ => a ≤ b) l) :=
    List.sorted_insertionSort _ _
  set v := List.insertionSort (fun a b : ℚ => a ≤ b) l with hv
  have hmono : ∀ (i j : ℕ) (h1 : i < v.length) (h2 : j < v.length), i ≤ j →
      v[i] ≤ v[j] := by
    intro i j h1 h2 hij
    have := hsorted.rel_get_of_le
      (show (⟨i, h1⟩ : Fin v.length) ≤ ⟨j, h2⟩ from Fin.mk_le_mk.mpr hij)
    simpa [List.get_eq_getElem] using this
  have hm : l.length / 2 < l.length := by omega
  rw [median]
  by_cases hpar : l.length % 2 = 1
  · rw [if_pos hpar,
      List.getD_eq_getElem v 0 (show l.length / 2 < v.length by omega),
      List.getD_eq_getElem v 0 (show k < v.length by omega)]
    exact hmono _ _ _ _ hmk
  · rw [if_neg hpar]
    have h2 : 2 ≤ l.length := by omega
    have hm1 : l.length / 2 - 1 < v.length := by omega
    rw [List.getD_eq_getElem v 0 hm1,
      List.getD_eq_getElem v 0 (show l.length / 2 < v.length by omega),
      List.getD_eq_getElem v 0 (show k < v.length by omega)]
    have ha : v[l.length / 2 - 1] ≤ v[l.length / 2] := hmono _ _ hm1 (by omega) (by omega)
    have hb : v[l.length / 2] ≤ v[k] := hmono _ _ (by omega) (by omega) hmk
    linarith

/-- Claim C2 counterexample: on the two-key dictionary where both states
have count 1, the median of the values is 1, and `get_heavy_outputs`
returns the state with count 1, whose probability is not strictly greater
than the median.  The claim as stated is therefore false on the code. -/
theorem heavy_outputs_median_counterexample :
    ¬ (∀ p ∈ get_heavy_outputs [("0", (1 : ℚ)), ("1", 1)],
        median ([("0", (1 : ℚ)), ("1", 1)].map Prod.snd) < p.2) := by
  intro hall
  have h1 : get_heavy_outputs [("0", (1 : ℚ)), ("1", 1)] = [("1", 1)] := by
    norm_num [get_heavy_outputs, sorted_counts, List.insertionSort, List.orderedInsert, leVal]
  have h2 : median ([("0", (1 : ℚ)), ("1", 1)].map Prod.snd) = 1 := by
    norm_num [median, List.insertionSort, List.orderedInsert]
  have := hall ("1", 1) (by rw [h1]; exact List.mem_singleton.mpr rfl)
  rw [h2] at this
  exact lt_irrefl 1 this

/-- Claim C2, amended: because `get_heavy_outputs` keeps the upper
positional half of the sorted list, a returned state whose count ties the
median is kept, so the guarantee is non-strict: every returned state has
ideal probability greater than or equal to the median probability over
all outcomes. -/
theorem heavy_outputs_ge_median (counts : List (String × ℚ)) (h : counts ≠ []) :
    ∀ p ∈ get_heavy_outputs counts, median (counts.map Prod.snd) ≤ p.2 := by
  intro p hp
  have hlen := length_sorted_counts counts
  rw [get_heavy_outputs] at hp
  obtain ⟨j, hj, hpj⟩ := List.mem_iff_getElem.mp hp
  rw [List.getElem_drop] at hpj
  have hjlt : (sorted_counts counts).length / 2 + j < (sorted_counts counts).length := by
    rw [List.length_drop] at hj
    omega
  have hsnd : p.2 = ((sorted_counts counts).map Prod.snd).getD
      ((sorted_counts counts).length / 2 + j) 0 := by
    rw [List.getD_eq_getElem _ 0 (by rw [List.length_map]; exact hjlt),
      List.getElem_map, hpj]
  rw [hsnd, sorted_counts_map_snd counts]
  exact median_le_upper (counts.map Prod.snd)
    (fun h0 => h (List.map_eq_nil_iff.mp h0))
    ((sorted_counts counts).length / 2 + j)
    (by rw [List.length_map]; omega)
    (by rw [List.length_map]; omega)

/-- Witness for the amended C2 at the dictionary `[("0", 1), ("1", 2)]`. -/
theorem heavy_outputs_ge_median_witness :
    ([(("0" : String), (1 : ℚ)), ("1", 2)] ≠ ([] : List (String × ℚ))) ∧
    (∀ p ∈ get_heavy_outputs [("0", 1), ("1", 2)],
      median ([(("0" : String), (1 : ℚ)), ("1", 2)].map Prod.snd) ≤ p.2) :=
  ⟨by decide, heavy_outputs_ge_median _ (by decide)⟩

/-- Embedding of `check_threshold` (`quantum_volume.py`, lines 30-43).
Python floats are embedded as real numbers and the returned `bool(...)`
becomes the proposition that the inequality holds. -/
def check_threshold (n_heavies n_circuits n_shots : ℝ) : Prop :=
  let numerator := n_heavies - 2 * Real.sqrt (n_heavies * (n_shots - n_heavies / n_circuits))
  numerator / (n_circuits * n_shots) > 2 / 3

/-- Written from the claim wording, not from the code: the closed-form
expression of C3 compared against 2/3. -/
def check_threshold_closed_form (n_heavies n_circuits n_shots : ℝ) : Prop :=
  (n_heavies - 2 * Real.sqrt (n_heavies * (n_shots - n_heavies / n_circuits))) /
    (n_circuits * n_shots) > 2 / 3

/-- Claim C3: for positive `n_circuits` and `n_shots`, `check_threshold`
holds exactly when the closed-form expression
`(n_heavies - 2*sqrt(n_heavies*(n_shots - n_heavies/n_circuits))) / (n_circuits*n_shots)`
is strictly greater than 2/3. -/
theorem check_threshold_iff_closed_form (n_heavies n_circuits n_shots : ℝ)
    (_hc : 0 < n_circuits) (_hs : 0 < n_shots) :
    (check_threshold n_heavies n_circuits n_shots ↔
      check_threshold_closed_form n_heavies n_circuits n_shots) :=
  Iff.rfl

/-- Witness for C3 at `n_heavies = 90`, `n_circuits = 5`, `n_shots = 100`. -/
theorem check_threshold_iff_closed_form_witness :
    ((0 : ℝ) < 5) ∧ ((0 : ℝ) < 100) ∧
    (check_threshold 90 5 100 ↔ check_threshold_closed_form 90 5 100) :=
  ⟨by norm_num, by norm_num,
    check_threshold_iff_closed_form 90 5 100 (by norm_num) (by norm_num)⟩

/-- Embedding of the heavy-count accumulation of `test_qv`
(`quantum_volume.py`, lines 101-103): fold over the items of the measured
counts dictionary, adding the count whenever the output belongs to the
ideal heavy-output list of the circuit. -/
def n_heavy (real_counts : List (String × ℕ)) (ideal_heavy_outputs : List String) : ℕ :=
  real_counts.foldl (fun acc p => if p.1 ∈ ideal_heavy_outputs then acc + p.2 else acc) 0

/-- Embedding of line 127 of `quantum_volume.py`:
`cum_HOP[i] = sum(n_heavies[0:i+1]) / n_shots / (i+1) * 100`.
Python float division is embedded as exact rational division. -/
def cum_HOP (n_heavies : List ℕ) (n_shots : ℕ) (i : ℕ) : ℚ :=
  ((n_heavies.take (i + 1)).sum : ℚ) / (n_shots : ℚ) / ((i : ℚ) + 1) * 100

/-- Embedding of line 128 of `quantum_volume.py`:
`cum_2sigma[i] = 2 * sqrt( cum_HOP[i] * ( 100.0 - cum_HOP[i] ) / (i+1) )`.
The square root forces this value into the real numbers. -/
noncomputable def cum_2sigma (n_heavies : List ℕ) (n_shots : ℕ) (i : ℕ) : ℝ :=
  2 * Real.sqrt ((cum_HOP n_heavies n_shots i : ℝ) *
    (100 - (cum_HOP n_heavies n_shots i : ℝ)) / ((i : ℝ) + 1))

/-- Abstraction of one `test_qv` run (`quantum_volume.py`, lines 45-168):
the SDK calls are abstracted by giving, for each circuit, the measured
counts dictionary and the ideal heavy-output list produced by the
noiseless simulation. -/
structure QVRun where
  n_qubits : ℕ
  n_shots : ℕ
  real_counts : List (List (String × ℕ))
  ideal_heavy_outputs : List (List String)

/-- Per-circuit heavy-output counts of the run (`n_heavies` array filled
by the loop at lines 88-103). -/
def qv_n_heavies (run : QVRun) : List ℕ :=
  List.zipWith n_heavy run.real_counts run.ideal_heavy_outputs

/-- Reported quantum volume (line 150: `"QV": 2**n_qubits`). -/
def qv_QV (run : QVRun) : ℕ := 2 ^ run.n_qubits

/-- Success flag (line 143:
`is_pass = bool( (cum_HOP[-1]-cum_2sigma[-1]) > (100*2/3) )`). -/
def qv_success (run : QVRun) : Prop :=
  (cum_HOP (qv_n_heavies run) run.n_shots (run.real_counts.length - 1) : ℝ) -
    cum_2sigma (qv_n_heavies run) run.n_shots (run.real_counts.length - 1) >
    100 * 2 / 3

theorem n_heavy_foldl (hs : List String) (l : List (String × ℕ)) (acc : ℕ) :
    l.foldl (fun a p => if p.1 ∈ hs then a + p.2 else a) acc =
      acc + ((l.filter (fun p => p.1 ∈ hs)).map Prod.snd).sum := by
  induction l generalizing acc with
  | nil => simp
  | cons p l ih =>
    by_cases h : p.1 ∈ hs
    · simp [List.foldl_cons, List.filter_cons, h, ih]
      omega
    · simp [List.foldl_cons, List.filter_cons, h, ih]

theorem n_heavy_eq_sum (real_counts : List (String × ℕ)) (hs : List String) :
    n_heavy real_counts hs =
      ((real_counts.filter (fun p => p.1 ∈ hs)).map Prod.snd).sum := by
  rw [n_heavy, n_heavy_foldl]
  omega

/-- Claim C4: with the SDK calls abstracted as given per-circuit counts
dictionaries and ideal heavy-output sets, the aggregation of `test_qv`
satisfies: `n_heavies[i]` is the sum of the counts of the measured outputs
in circuit i's ideal heavy-output set; `cum_HOP[i]` equals
`100 * (n_heavies[0]+...+n_heavies[i]) / (n_shots*(i+1))`; `cum_2sigma[i]`
equals `2*sqrt(cum_HOP[i]*(100-cum_HOP[i])/(i+1))`; the reported QV is
`2^n_qubits`; and success holds iff
`cum_HOP[-1] - cum_2sigma[-1] > 100*2/3`. -/
theorem test_qv_statistics (run : QVRun) (i : ℕ)
    (hlen : run.real_counts.length = run.ideal_heavy_outputs.length)
    (hi : i < run.real_counts.length) :
    ((qv_n_heavies run).getD i 0 =
      (((run.real_counts.getD i []).filter
        (fun p => p.1 ∈ run.ideal_heavy_outputs.getD i [])).map Prod.snd).sum) ∧
    (cum_HOP (qv_n_heavies run) run.n_shots i =
      100 * (((qv_n_heavies run).take (i + 1)).sum : ℚ) /
        ((run.n_shots : ℚ) * ((i : ℚ) + 1))) ∧
    (cum_2sigma (qv_n_heavies run) run.n_shots i =
      2 * Real.sqrt ((cum_HOP (qv_n_heavies run) run.n_shots i : ℝ) *
        (100 - (cum_HOP (qv_n_heavies run) run.n_shots i : ℝ)) / ((i : ℝ) + 1))) ∧
    (qv_QV run = 2 ^ run.n_qubits) ∧
    (qv_success run ↔
      (cum_HOP (qv_n_heavies run) run.n_shots (run.real_counts.length - 1) : ℝ) -
        cum_2sigma (qv_n_heavies run) run.n_shots (run.real_counts.length - 1) >
        100 * 2 / 3) := by
  refine ⟨?_, ?_, rfl, rfl, Iff.rfl⟩
  · have hz : i < (qv_n_heavies run).length := by
      rw [qv_n_heavies, List.length_zipWith]
      omega
    rw [List.getD_eq_getElem _ 0 hz,
      List.getD_eq_getElem _ [] hi,
      List.getD_eq_getElem _ [] (show i < run.ideal_heavy_outputs.length by omega)]
    simp only [qv_n_heavies, List.getElem_zipWith]
    exact n_heavy_eq_sum _ _
  · rw [cum_HOP, div_div]
    ring

/-- Witness for C4 on a single-circuit run with measured counts
`[("00", 3), ("11", 7)]`, ideal heavy outputs `["11"]`, 10 shots and 2
qubits, at circuit index 0. -/
theorem test_qv_statistics_witness :
    ((QVRun.mk 2 10 [[("00", 3), ("11", 7)]] [["11"]]).real_counts.length =
      (QVRun.mk 2 10 [[("00", 3), ("11", 7)]] [["11"]]).ideal_heavy_outputs.length) ∧
    (0 < (QVRun.mk 2 10 [[("00", 3), ("11", 7)]] [["11"]]).real_counts.length) ∧
    (((qv_n_heavies (QVRun.mk 2 10 [[("00", 3), ("11", 7)]] [["11"]])).getD 0 0 =
      ((((QVRun.mk 2 10 [[("00", 3), ("11", 7)]] [["11"]]).real_counts.getD 0 []).filter
        (fun p => p.1 ∈ (QVRun.mk 2 10 [[("00", 3), ("11", 7)]]
          [["11"]]).ideal_heavy_outputs.getD 0 [])).map Prod.snd).sum) ∧
    (cum_HOP (qv_n_heavies (QVRun.mk 2 10 [[("00", 3), ("11", 7)]] [["11"]])) 10 0 =
      100 * (((qv_n_heavies (QVRun.mk 2 10 [[("00", 3), ("11", 7)]]
        [["11"]])).take (0 + 1)).sum : ℚ) / (((10 : ℕ) : ℚ) * (((0 : ℕ) : ℚ) + 1))) ∧
    (cum_2sigma (qv_n_heavies (QVRun.mk 2 10 [[("00", 3), ("11", 7)]] [["11"]])) 10 0 =
      2 * Real.sqrt ((cum_HOP (qv_n_heavies (QVRun.mk 2 10 [[("00", 3), ("11", 7)]]
          [["11"]])) 10 0 : ℝ) *
        (100 - (cum_HOP (qv_n_heavies (QVRun.mk 2 10 [[("00", 3), ("11", 7)]]
          [["11"]])) 10 0 : ℝ)) / (((0 : ℕ) : ℝ) + 1))) ∧
    (qv_QV (QVRun.mk 2 10 [[("00", 3), ("11", 7)]] [["11"]]) = 2 ^ 2) ∧
    (qv_success (QVRun.mk 2 10 [[("00", 3), ("11", 7)]] [["11"]]) ↔
      (cum_HOP (qv_n_heavies (QVRun.mk 2 10 [[("00", 3), ("11", 7)]] [["11"]])) 10
          ((QVRun.mk 2 10 [[("00", 3), ("11", 7)]] [["11"]]).real_counts.length - 1) : ℝ) -
        cum_2sigma (qv_n_heavies (QVRun.mk 2 10 [[("00", 3), ("11", 7)]] [["11"]])) 10
          ((QVRun.mk 2 10 [[("00", 3), ("11", 7)]] [["11"]]).real_counts.length - 1) >
        100 * 2 / 3)) :=
  ⟨rfl, by decide, test_qv_statistics (QVRun.mk 2 10 [[("00", 3), ("11", 7)]] [["11"]]) 0
    rfl (by decide)⟩

end QuantumVolume

namespace Utils

/-- Embedding of `common_basis_gates` (`utils.py`, lines 1-19).  The
result pairs the returned basis-gate list with the lines printed by the
function. -/
def common_basis_gates (gates_set_name : String) : List String × List String :=
  if gates_set_name = "rxrxcz" then
    (["id", "rx", "ry", "cz", "reset"], [])
  else if gates_set_name = "rrzrzz" then
    (["id", "r", "rz", "rzz", "reset"], [])
  else
    ([], ["Basis set\x27s name not found."])

/-- Claim C8: `common_basis_gates` returns the rx/ry/cz gate list for
"rxrxcz", the r/rz/rzz gate list for "rrzrzz", and for every other input
returns the empty list after printing a not-found message; being a total
function, it never raises. -/
theorem common_basis_gates_cases (s : String)
    (h1 : s ≠ "rxrxcz") (h2 : s ≠ "rrzrzz") :
    common_basis_gates "rxrxcz" = (["id", "rx", "ry", "cz", "reset"], []) ∧
    common_basis_gates "rrzrzz" = (["id", "r", "rz", "rzz", "reset"], []) ∧
    common_basis_gates s = ([], ["Basis set\x27s name not found."]) := by
  refine ⟨rfl, rfl, ?_⟩
  rw [common_basis_gates, if_neg h1, if_neg h2]

/-- Witness for C8 at the unknown basis-set name "foo". -/
theorem common_basis_gates_cases_witness :
    (("foo" : String) ≠ "rxrxcz") ∧ (("foo" : String) ≠ "rrzrzz") ∧
    (common_basis_gates "rxrxcz" = (["id", "rx", "ry", "cz", "reset"], []) ∧
    common_basis_gates "rrzrzz" = (["id", "r", "rz", "rzz", "reset"], []) ∧
    common_basis_gates "foo" = ([], ["Basis set\x27s name not found."])) :=
  ⟨by decide, by decide, common_basis_gates_cases "foo" (by decide) (by decide)⟩

/-- Embedding of Python `range(a, b)` over the integers: the list
`[a, a+1, ..., b-1]`, empty when `b ≤ a`. -/
def pyRange (a b : ℤ) : List ℤ :=
  (List.range (b - a).toNat).map (fun (k : ℕ) => a + (k : ℤ))

/-- Embedding of `finite_connected_map` (`utils.py`, lines 21-31); the
two nested list comprehensions become `flatMap` over the outer range. -/
def finite_connected_map (n_qubits : ℕ) (radius : ℤ) : List (List ℤ) :=
  if radius ≤ (n_qubits : ℤ) then
    (pyRange 0 (n_qubits : ℤ)).flatMap (fun i =>
      (pyRange (max 0 (i - radius)) i ++
       pyRange (i + 1) (min (i + 1 + radius) (n_qubits : ℤ))).map (fun j => [i, j]))
  else
    (pyRange 0 (n_qubits : ℤ)).flatMap (fun i =>
      (pyRange 0 i ++ pyRange (i + 1) (n_qubits : ℤ)).map (fun j => [i, j]))

theorem mem_pyRange (a b x : ℤ) : x ∈ pyRange a b ↔ a ≤ x ∧ x < b := by
  rw [pyRange, List.mem_map]
  constructor
  · rintro ⟨k, hk, rfl⟩
    rw [List.mem_range] at hk
    omega
  · rintro ⟨h1, h2⟩
    exact ⟨(x - a).toNat, List.mem_range.mpr (by omega), by omega⟩

theorem mem_finite_connected_map (n_qubits : ℕ) (radius : ℤ) (i j : ℤ) :
    [i, j] ∈ finite_connected_map n_qubits radius ↔
      (0 ≤ i ∧ i < (n_qubits : ℤ) ∧ 0 ≤ j ∧ j < (n_qubits : ℤ) ∧ i ≠ j ∧
        ((n_qubits : ℤ) < radius ∨ |i - j| ≤ radius)) := by
  rw [finite_connected_map]
  rw [show (|i - j| ≤ radius) = (i - j ≤ radius ∧ j - i ≤ radius) from
    propext abs_sub_le_iff]
  split_ifs with hr
  · simp only [List.mem_flatMap, List.mem_map, List.mem_append, mem_pyRange,
      List.cons.injEq, and_true]
    constructor
    · rintro ⟨a, ⟨ha0, han⟩, b, hb, rfl, rfl⟩
      omega
    · rintro ⟨h1, h2, h3, h4, h5, h6⟩
      exact ⟨i, ⟨h1, h2⟩, j, by omega, rfl, rfl⟩
  · simp only [List.mem_flatMap, List.mem_map, List.mem_append, mem_pyRange,
      List.cons.injEq, and_true]
    constructor
    · rintro ⟨a, ⟨ha0, han⟩, b, hb, rfl, rfl⟩
      omega
    · rintro ⟨h1, h2, h3, h4, h5, h6⟩
      exact ⟨i, ⟨h1, h2⟩, j, by omega, rfl, rfl⟩

/-- Claim C9: the pair `[i, j]` is in `finite_connected_map n_qubits radius`
exactly when `0 ≤ i < n_qubits`, `0 ≤ j < n_qubits`, `i ≠ j`, and either
`radius > n_qubits` or `|i - j| ≤ radius`; consequently the coupling map
contains no self-pair and is symmetric. -/
theorem finite_connected_map_spec (n_qubits : ℕ) (radius : ℤ) (i j : ℤ) :
    ([i, j] ∈ finite_connected_map n_qubits radius ↔
      (0 ≤ i ∧ i < (n_qubits : ℤ) ∧ 0 ≤ j ∧ j < (n_qubits : ℤ) ∧ i ≠ j ∧
        ((n_qubits : ℤ) < radius ∨ |i - j| ≤ radius))) ∧
    ([i, i] ∉ finite_connected_map n_qubits radius) ∧
    ([i, j] ∈ finite_connected_map n_qubits radius ↔
      [j, i] ∈ finite_connected_map n_qubits radius) := by
  refine ⟨mem_finite_connected_map n_qubits radius i j, ?_, ?_⟩
  · intro hmem
    exact ((mem_finite_connected_map n_qubits radius i i).mp hmem).2.2.2.2.1 rfl
  · rw [mem_finite_connected_map, mem_finite_connected_map,
      show (|i - j| ≤ radius) = (i - j ≤ radius ∧ j - i ≤ radius) from
        propext abs_sub_le_iff,
      show (|j - i| ≤ radius) = (j - i ≤ radius ∧ i - j ≤ radius) from
        propext abs_sub_le_iff]
    constructor
    · rintro ⟨h1, h2, h3, h4, h5, h6⟩
      exact ⟨h3, h4, h1, h2, fun hji => h5 hji.symm, by omega⟩
    · rintro ⟨h1, h2, h3, h4, h5, h6⟩
      exact ⟨h3, h4, h1, h2, fun hij => h5 hij.symm, by omega⟩

end Utils

namespace BackendBuild

/-- Python exceptions relevant to `backend_build.py`: `IOError` raised by
file operations, `KeyError` raised by the SDK gate-table lookup,
`AttributeError` raised when `self.n_qubits` was never assigned, and
`ValueError` raised by `str.format` on the malformed format string of the
`KeyError` handler (lone closing brace at line 155). -/
inductive PyExc where
  | ioError (msg : String)
  | keyError (msg : String)
  | attributeError (msg : String)
  | valueError (msg : String)
deriving DecidableEq

/-- One row of the qubits CSV, with the columns read by `create_props`
(lines 50-57 of `backend_build.py`). -/
structure QubitRow where
  T1 : ℚ
  T1_date : String
  T2 : ℚ
  T2_date : String
  frequency : ℚ
  frequency_date : String
  readout_error : ℚ
  readout_error_date : String
  prob_meas0_prep1 : ℚ
  prob_meas0_prep1_date : String
  prob_meas1_prep0 : ℚ
  prob_meas1_prep0_date : String
  readout_length : ℚ
  readout_length_date : String
deriving DecidableEq

/-- One row of the gates CSV, with the columns read by `create_props` and
`create_conf`.  The `qubits` column holds a JSON-encoded list of qubit
indices in the file; the external `json.loads` decoding is abstracted by
storing the decoded list directly. -/
structure GateRow where
  qubits : List ℤ
  gate : String
  gate_error : ℚ
  error_date : String
  gate_length : ℚ
  length_date : String
  name : String
deriving DecidableEq

/-- Mirror of the SDK `Nduv` record (date, name, unit, value). -/
structure Nduv where
  date : String
  name : String
  unit : String
  value : ℚ
deriving DecidableEq

/-- Mirror of the SDK `GateProperties` record. -/
structure GateProperties where
  qubits : List ℤ
  gate : String
  parameters : List Nduv
  name : String
deriving DecidableEq

/-- The parts of the SDK `BackendProperties` record that `create_props`
fills from the CSV files. -/
structure BackendProps where
  backend_name : String
  backend_version : String
  qubits : List (List Nduv)
  gates : List GateProperties
deriving DecidableEq

/-- Abstraction of one entry of the external SDK's
`get_standard_gate_name_mapping()` table: the data of the gate object
that the loop in `create_conf` reads. -/
structure StdGate where
  name : String
  num_qubits : ℕ
  params : List String
  qasm_def : String
deriving DecidableEq

/-- Mirror of the SDK `GateConfig` record. -/
structure GateConfig where
  name : String
  parameters : List String
  qasm_def : String
  coupling_map : List (List ℤ)
deriving DecidableEq

/-- The parts of the SDK `QasmBackendConfiguration` record that
`create_conf` fills. -/
structure BackendConf where
  backend_name : String
  backend_version : String
  n_qubits : ℕ
  basis_gates : List String
  gates : List GateConfig
  coupling_map : List (List ℤ)
deriving DecidableEq

/-- Oracle for the file system and the external SDK: each file operation
performed by `build_from_file` either succeeds (for reads, with the data
read) or raises an `IOError` carrying a message, and the SDK gate table
is a partial map from gate names to gate data. -/
structure Env where
  dir_exists : Bool
  mkdir : Except String Unit
  open_init_py : Except String Unit
  open_fake_py : Except String Unit
  read_pkg_init : Except String (List String)
  append_pkg_init : Except String Unit
  read_qubits_csv : Except String (List QubitRow)
  read_gates_csv : Except String (List GateRow)
  open_props_json : Except String Unit
  open_conf_json : Except String Unit
  std_gates : String → Option StdGate

/-- Worker for `drop_duplicates`, carrying the values already seen. -/
def drop_duplicates_aux {α : Type} [DecidableEq α] : List α → List α → List α
  | _, [] => []
  | seen, a :: l =>
      if a ∈ seen then drop_duplicates_aux seen l
      else a :: drop_duplicates_aux (a :: seen) l

/-- Embedding of `pandas.drop_duplicates` on a column: keep the first
occurrence of each value, preserving order. -/
def drop_duplicates {α : Type} [DecidableEq α] (l : List α) : List α :=
  drop_duplicates_aux [] l

/-- Result of `create_props`: the printed lines, the `self.n_qubits` and
`self.props` attributes after the call (`none` when the assignment was
never reached), and the returned value; an uncaught exception would
appear as `Except.error`. -/
structure PropsResult where
  printed : List String
  n_qubits : Option ℕ
  props : Option BackendProps
  ret : Except PyExc Bool

/-- Embedding of `build_from_file.create_props` (`backend_build.py`,
lines 40-95): read the qubits CSV, set `self.n_qubits`, read the gates
CSV, build the properties record and write it to `props_<name>.json`;
any `IOError` is caught, reported, and turned into `False`. -/
def create_props (env : Env) (backend_name backend_version : String) : PropsResult :=
  match env.read_qubits_csv with
  | Except.error e =>
      PropsResult.mk ["Failed to create props_" ++ backend_name ++ ".json", e]
        none none (Except.ok false)
  | Except.ok qubits_info =>
      let qubits := qubits_info.map (fun q =>
        [Nduv.mk q.T1_date "T1" "ms" q.T1,
         Nduv.mk q.T2_date "T2" "ms" q.T2,
         Nduv.mk q.frequency_date "frequency" "MHz" q.frequency,
         Nduv.mk q.readout_error_date "readout_error" "" q.readout_error,
         Nduv.mk q.prob_meas0_prep1_date "prob_meas0_prep1" "" q.prob_meas0_prep1,
         Nduv.mk q.prob_meas1_prep0_date "prob_meas1_prep0" "" q.prob_meas1_prep0,
         Nduv.mk q.readout_length_date "readout_length" "us" q.readout_length])
      match env.read_gates_csv with
      | Except.error e =>
          PropsResult.mk ["Failed to create props_" ++ backend_name ++ ".json", e]
            (some qubits.length) none (Except.ok false)
      | Except.ok gates_info =>
          let gates := gates_info.map (fun g =>
            GateProperties.mk g.qubits g.gate
              [Nduv.mk g.error_date "gate_error" "" g.gate_error,
               Nduv.mk g.length_date "gate_length" "us" g.gate_length]
              g.name)
          match env.open_props_json with
          | Except.error e =>
              PropsResult.mk ["Failed to create props_" ++ backend_name ++ ".json", e]
                (some qubits.length) none (Except.ok false)
          | Except.ok _ =>
              PropsResult.mk ["Successfully created props_" ++ backend_name ++ ".json"]
                (some qubits.length)
                (some (BackendProps.mk backend_name backend_version qubits gates))
                (Except.ok true)

/-- Basis-gate list computed at lines 108-112 of `backend_build.py`:
the distinct values of the gate column, with `"id"` and `"reset"`
appended when absent. -/
def basis_gates_of (gates_info : List GateRow) : List String :=
  let b := drop_duplicates (gates_info.map (fun g => g.gate))
  let b1 := if "id" ∈ b then b else b ++ ["id"]
  if "reset" ∈ b1 then b1 else b1 ++ ["reset"]

/-- One-qubit coupling entries collected at lines 115-122: the distinct
values of the qubits column that decode to a single-qubit list. -/
def coupling_map_one (gates_info : List GateRow) : List (List ℤ) :=
  (drop_duplicates (gates_info.map (fun g => g.qubits))).filter
    (fun q => q.length = 1)

/-- Two-qubit coupling entries collected at lines 115-122. -/
def coupling_map_two (gates_info : List GateRow) : List (List ℤ) :=
  (drop_duplicates (gates_info.map (fun g => g.qubits))).filter
    (fun q => q.length = 2)

/-- Embedding of the loop at lines 133-157 of `backend_build.py`: look
each basis-gate name up in the SDK table, building a `GateConfig` with
the one- or two-qubit coupling map; the first missing name aborts the
loop with that name (the `KeyError` path). -/
def conf_gates_loop (std_gates : String → Option StdGate)
    (cm1 cm2 : List (List ℤ)) : List String → Except String (List GateConfig)
  | [] => Except.ok []
  | gate_name :: rest =>
      match std_gates gate_name with
      | none => Except.error gate_name
      | some gate =>
          match conf_gates_loop std_gates cm1 cm2 rest with
          | Except.error e => Except.error e
          | Except.ok gs =>
              if gate.num_qubits = 1 then
                Except.ok (GateConfig.mk gate.name gate.params gate.qasm_def cm1 :: gs)
              else if gate.num_qubits = 2 then
                Except.ok (GateConfig.mk gate.name gate.params gate.qasm_def cm2 :: gs)
              else
                Except.ok gs

/-- Result of `create_conf`: the printed lines, the configuration as
written to `conf_<name>.json` (`none` when the file was not written), and
the returned value; an uncaught exception appears as `Except.error`. -/
structure ConfResult where
  printed : List String
  conf : Option BackendConf
  ret : Except PyExc Bool

/-- Embedding of `build_from_file.create_conf` (`backend_build.py`,
lines 98-186).  Reading `self.n_qubits` when `create_props` never
assigned it raises an uncaught `AttributeError`.  A missing gate name
raises a `KeyError` caught at lines 154-157, but the handler's format
string `"{} is not in the qiskit standard gates library.}"` contains a
lone closing brace, so `str.format` raises `ValueError` before anything
is printed; that `ValueError` matches neither the inner `except KeyError`
nor the outer `except IOError` and escapes `create_conf` uncaught, with
nothing printed, no value returned, and the configuration file never
opened.  An `IOError` from the CSV read or the JSON write is caught at
lines 183-186. -/
def create_conf (env : Env) (backend_name backend_version : String)
    (n_qubits_attr : Option ℕ) : ConfResult :=
  match n_qubits_attr with
  | none => ConfResult.mk [] none (Except.error (PyExc.attributeError
      ("build_from_file object has no attribute n_qubits")))
  | some n_qubits =>
    match env.read_gates_csv with
    | Except.error e =>
        ConfResult.mk ["Failed to create props_" ++ backend_name ++ ".json", e]
          none (Except.ok false)
    | Except.ok gates_info =>
        match conf_gates_loop env.std_gates (coupling_map_one gates_info)
            (coupling_map_two gates_info) (basis_gates_of gates_info) with
        | Except.error _ =>
            ConfResult.mk [] none (Except.error (PyExc.valueError
              "Single \x27\x7d\x27 encountered in format string"))
        | Except.ok gates =>
            match env.open_conf_json with
            | Except.error e =>
                ConfResult.mk
                  ["Failed to create props_" ++ backend_name ++ ".json", e]
                  none (Except.ok false)
            | Except.ok _ =>
                ConfResult.mk
                  ["Successfully created conf_" ++ backend_name ++ ".json"]
                  (some (BackendConf.mk backend_name backend_version n_qubits
                    (basis_gates_of gates_info) gates
                    (coupling_map_two gates_info)))
                  (Except.ok true)

/-- Membership test at lines 223-225 of `backend_build.py`: whether some
line of the package `__init__.py` contains the import of the new backend
directory as a substring. -/
def pkg_imported (backend_name : String) (lines : List String) : Bool :=
  lines.any (fun line =>
    line.containsSubstr ("from .fake_" ++ backend_name ++ " import *").toSubstring)

/-- Result of `create_init_file`: the printed lines, the
`self.backend_names` attribute after the call, and the returned value. -/
structure InitFileResult where
  printed : List String
  backend_names : Option (List String)
  ret : Except PyExc Bool

/-- Embedding of `build_from_file.create_init_file` (`backend_build.py`,
lines 189-235): create the backend directory if needed, write the
package files, and register the import in the provider `__init__.py`
unless already present; any `IOError` is caught, reported, and turned
into `False`. -/
def create_init_file (env : Env) (backend_name : String) : InitFileResult :=
  match (if env.dir_exists then Except.ok () else env.mkdir) with
  | Except.error e =>
      InitFileResult.mk ["Failed to create initializing scripts", e]
        none (Except.ok false)
  | Except.ok _ =>
    match env.open_init_py with
    | Except.error e =>
        InitFileResult.mk ["Failed to create initializing scripts", e]
          none (Except.ok false)
    | Except.ok _ =>
      match env.open_fake_py with
      | Except.error e =>
          InitFileResult.mk ["Failed to create initializing scripts", e]
            none (Except.ok false)
      | Except.ok _ =>
        match env.read_pkg_init with
        | Except.error e =>
            InitFileResult.mk ["Failed to create initializing scripts", e]
              (some ["Fake" ++ backend_name, "Fake" ++ backend_name ++ "V2"])
              (Except.ok false)
        | Except.ok lines =>
          if pkg_imported backend_name lines then
            InitFileResult.mk []
              (some ["Fake" ++ backend_name, "Fake" ++ backend_name ++ "V2"])
              (Except.ok true)
          else
            match env.append_pkg_init with
            | Except.error e =>
                InitFileResult.mk ["Failed to create initializing scripts", e]
                  (some ["Fake" ++ backend_name, "Fake" ++ backend_name ++ "V2"])
                  (Except.ok false)
            | Except.ok _ =>
                InitFileResult.mk []
                  (some ["Fake" ++ backend_name, "Fake" ++ backend_name ++ "V2"])
                  (Except.ok true)

/-- The three build steps invoked by `build_from_file.__init__`. -/
inductive BuildStep where
  | init_file
  | props
  | conf
deriving DecidableEq

/-- Result of `build_from_file.__init__`: the steps invoked in order, the
lines printed, and the outcome. -/
structure BuildResult where
  invoked : List BuildStep
  printed : List String
  outcome : Except PyExc Unit

/-- Embedding of `build_from_file.__init__` (`backend_build.py`, lines
17-37).  The Python `all((a, b, c))` builds the tuple first, so all three
method calls are evaluated in order regardless of their boolean results;
only an exception raised by one of them stops the later calls. -/
def build_from_file (env : Env) (backend_name backend_version : String) : BuildResult :=
  let r1 := create_init_file env backend_name
  match r1.ret with
  | Except.error e => BuildResult.mk [BuildStep.init_file] r1.printed (Except.error e)
  | Except.ok b1 =>
    let r2 := create_props env backend_name backend_version
    match r2.ret with
    | Except.error e =>
        BuildResult.mk [BuildStep.init_file, BuildStep.props]
          (r1.printed ++ r2.printed) (Except.error e)
    | Except.ok b2 =>
      let r3 := create_conf env backend_name backend_version r2.n_qubits
      match r3.ret with
      | Except.error e =>
          BuildResult.mk [BuildStep.init_file, BuildStep.props, BuildStep.conf]
            (r1.printed ++ r2.printed ++ r3.printed) (Except.error e)
      | Except.ok b3 =>
          if b1 && b2 && b3 then
            BuildResult.mk [BuildStep.init_file, BuildStep.props, BuildStep.conf]
              (r1.printed ++ r2.printed ++ r3.printed ++
                ["New backends created, please import the backends with:",
                 "from huayi_providers.fake_" ++ backend_name ++ " import Fake" ++
                   backend_name ++ ", Fake" ++ backend_name ++ "V2"])
              (Except.ok ())
          else
            BuildResult.mk [BuildStep.init_file, BuildStep.props, BuildStep.conf]
              (r1.printed ++ r2.printed ++ r3.printed) (Except.ok ())

theorem mem_drop_duplicates_aux {α : Type} [DecidableEq α] (x : α) :
    ∀ (l seen : List α), x ∈ drop_duplicates_aux seen l ↔ (x ∈ l ∧ x ∉ seen) := by
  intro l
  induction l with
  | nil =>
    intro seen
    simp [drop_duplicates_aux]
  | cons a l ih =>
    intro seen
    rw [drop_duplicates_aux]
    by_cases ha : a ∈ seen
    · rw [if_pos ha, ih]
      constructor
      · rintro ⟨hx, hs⟩
        exact ⟨List.mem_cons_of_mem a hx, hs⟩
      · rintro ⟨hx, hs⟩
        rcases List.mem_cons.mp hx with rfl | hx2
        · exact absurd ha hs
        · exact ⟨hx2, hs⟩
    · rw [if_neg ha]
      simp only [List.mem_cons, ih]
      constructor
      · rintro (rfl | ⟨hx, hs⟩)
        · exact ⟨Or.inl rfl, ha⟩
        · exact ⟨Or.inr hx, fun hmem => hs (Or.inr hmem)⟩
      · rintro ⟨rfl | hx, hs⟩
        · exact Or.inl rfl
        · by_cases hxa : x = a
          · exact Or.inl hxa
          · refine Or.inr ⟨hx, fun hmem => ?_⟩
            rcases hmem with h | h
            · exact hxa h
            · exact hs h

theorem mem_drop_duplicates {α : Type} [DecidableEq α] (x : α) :
    ∀ (l : List α), x ∈ drop_duplicates l ↔ x ∈ l := by
  intro l
  rw [drop_duplicates, mem_drop_duplicates_aux]
  simp

theorem nodup_drop_duplicates_aux {α : Type} [DecidableEq α] :
    ∀ (l seen : List α), (drop_duplicates_aux seen l).Nodup := by
  intro l
  induction l with
  | nil =>
    intro seen
    rw [drop_duplicates_aux]
    exact List.nodup_nil
  | cons a l ih =>
    intro seen
    rw [drop_duplicates_aux]
    by_cases ha : a ∈ seen
    · rw [if_pos ha]
      exact ih seen
    · rw [if_neg ha]
      refine List.nodup_cons.mpr ⟨?_, ih (a :: seen)⟩
      rw [mem_drop_duplicates_aux]
      rintro ⟨_, hns⟩
      exact hns (List.mem_cons_self a seen)

theorem nodup_drop_duplicates {α : Type} [DecidableEq α] :
    ∀ (l : List α), (drop_duplicates l).Nodup :=
  fun l => nodup_drop_duplicates_aux l []

theorem mem_basis_gates_of (gi : List GateRow) (g : String) :
    g ∈ basis_gates_of gi ↔
      g ∈ gi.map (fun r => r.gate) ∨ g = "id" ∨ g = "reset" := by
  simp only [basis_gates_of]
  split_ifs with h1 h2 h3
  · rw [mem_drop_duplicates]
    constructor
    · exact Or.inl
    · rintro (hg | rfl | rfl)
      · exact hg
      · exact (mem_drop_duplicates _ _).mp h1
      · exact (mem_drop_duplicates _ _).mp h2
  · simp only [List.mem_append, mem_drop_duplicates, List.mem_singleton]
    constructor
    · rintro (hg | rfl)
      · exact Or.inl hg
      · exact Or.inr (Or.inr rfl)
    · rintro (hg | rfl | rfl)
      · exact Or.inl hg
      · exact Or.inl ((mem_drop_duplicates _ _).mp h1)
      · exact Or.inr rfl
  · simp only [List.mem_append, mem_drop_duplicates, List.mem_singleton]
    constructor
    · rintro (hg | rfl)
      · exact Or.inl hg
      · exact Or.inr (Or.inl rfl)
    · rintro (hg | rfl | rfl)
      · exact Or.inl hg
      · exact Or.inr rfl
      · rcases List.mem_append.mp h3 with hres | hres
        · exact Or.inl ((mem_drop_duplicates _ _).mp hres)
        · exact absurd (List.mem_singleton.mp hres)
            (show ¬ (("reset" : String) = "id") by decide)
  · simp only [List.mem_append, mem_drop_duplicates, List.mem_singleton]
    constructor
    · rintro ((hg | rfl) | rfl)
      · exact Or.inl hg
      · exact Or.inr (Or.inl rfl)
      · exact Or.inr (Or.inr rfl)
    · rintro (hg | rfl | rfl)
      · exact Or.inl (Or.inl hg)
      · exact Or.inl (Or.inr rfl)
      · exact Or.inr rfl

theorem nodup_basis_gates_of (gi : List GateRow) : (basis_gates_of gi).Nodup := by
  simp only [basis_gates_of]
  split_ifs with h1 h2 h3
  · exact nodup_drop_duplicates _
  · exact List.Nodup.append (nodup_drop_duplicates _) (List.nodup_singleton _)
      (fun a ha hb => h2 (List.mem_singleton.mp hb ▸ ha))
  · exact List.Nodup.append (nodup_drop_duplicates _) (List.nodup_singleton _)
      (fun a ha hb => h1 (List.mem_singleton.mp hb ▸ ha))
  · refine List.Nodup.append ?_ (List.nodup_singleton _)
      (fun a ha hb => h3 (List.mem_singleton.mp hb ▸ ha))
    exact List.Nodup.append (nodup_drop_duplicates _) (List.nodup_singleton _)
      (fun a ha hb => h1 (List.mem_singleton.mp hb ▸ ha))

theorem conf_gates_loop_error_of_missing (std : String → Option StdGate)
    (cm1 cm2 : List (List ℤ)) :
    ∀ (l : List String), (∃ g ∈ l, std g = none) →
    ∃ g0, conf_gates_loop std cm1 cm2 l = Except.error g0 ∧
      g0 ∈ l ∧ std g0 = none := by
  intro l
  induction l with
  | nil => rintro ⟨g, hg, _⟩; exact absurd hg (List.not_mem_nil g)
  | cons a rest ih =>
    intro h
    rcases hstd : std a with _ | gate
    · exact ⟨a, by rw [conf_gates_loop, hstd], List.mem_cons_self a rest, hstd⟩
    · obtain ⟨g, hg, hgnone⟩ := h
      have hgrest : g ∈ rest := by
        rcases List.mem_cons.mp hg with rfl | h2
        · rw [hstd] at hgnone
          exact absurd hgnone (by simp)
        · exact h2
      obtain ⟨g0, heq, hg0mem, hg0none⟩ := ih ⟨g, hgrest, hgnone⟩
      refine ⟨g0, ?_, List.mem_cons_of_mem a hg0mem, hg0none⟩
      rw [conf_gates_loop, hstd, heq]

theorem create_props_ret_ok (env : Env) (backend_name backend_version : String) :
    ∃ b : Bool, (create_props env backend_name backend_version).ret = Except.ok b := by
  rcases h1 : env.read_qubits_csv with e | q
  · exact ⟨false, by simp [create_props, h1]⟩
  · rcases h2 : env.read_gates_csv with e | g
    · exact ⟨false, by simp [create_props, h1, h2]⟩
    · rcases h3 : env.open_props_json with e | ⟨⟩
      · exact ⟨false, by simp [create_props, h1, h2, h3]⟩
      · exact ⟨true, by simp [create_props, h1, h2, h3]⟩

theorem create_props_ok_true_iff (env : Env) (backend_name backend_version : String) :
    (create_props env backend_name backend_version).ret = Except.ok true ↔
      ((∃ q, env.read_qubits_csv = Except.ok q) ∧
       (∃ g, env.read_gates_csv = Except.ok g) ∧
       env.open_props_json = Except.ok ()) := by
  rcases h1 : env.read_qubits_csv with e | q
  · simp [create_props, h1]
  · rcases h2 : env.read_gates_csv with e | g
    · simp [create_props, h1, h2]
    · rcases h3 : env.open_props_json with e | ⟨⟩
      · simp [create_props, h1, h2, h3]
      · simp [create_props, h1, h2, h3]

theorem create_props_false_printed (env : Env) (backend_name backend_version : String)
    (h : (create_props env backend_name backend_version).ret = Except.ok false) :
    ("Failed to create props_" ++ backend_name ++ ".json") ∈
      (create_props env backend_name backend_version).printed := by
  rcases h1 : env.read_qubits_csv with e | q
  · simp [create_props, h1]
  · rcases h2 : env.read_gates_csv with e | g
    · simp [create_props, h1, h2]
    · rcases h3 : env.open_props_json with e | ⟨⟩
      · simp [create_props, h1, h2, h3]
      · rw [create_props] at h
        simp [h1, h2, h3] at h

theorem create_init_file_ret_ok (env : Env) (backend_name : String) :
    ∃ b : Bool, (create_init_file env backend_name).ret = Except.ok b := by
  rcases h0 : (if env.dir_exists then Except.ok () else env.mkdir) with e | ⟨⟩
  · exact ⟨false, by simp [create_init_file, h0]⟩
  · rcases h1 : env.open_init_py with e | ⟨⟩
    · exact ⟨false, by simp [create_init_file, h0, h1]⟩
    · rcases h2 : env.open_fake_py with e | ⟨⟩
      · exact ⟨false, by simp [create_init_file, h0, h1, h2]⟩
      · rcases h3 : env.read_pkg_init with e | ls
        · exact ⟨false, by simp [create_init_file, h0, h1, h2, h3]⟩
        · by_cases h4 : pkg_imported backend_name ls = true
          · exact ⟨true, by simp [create_init_file, h0, h1, h2, h3, h4]⟩
          · rcases h5 : env.append_pkg_init with e | ⟨⟩
            · exact ⟨false, by simp [create_init_file, h0, h1, h2, h3, h4, h5]⟩
            · exact ⟨true, by simp [create_init_file, h0, h1, h2, h3, h4, h5]⟩

theorem create_init_file_complete_true (env : Env) (backend_name : String)
    (h0 : env.dir_exists = true ∨ env.mkdir = Except.ok ())
    (h1 : env.open_init_py = Except.ok ())
    (h2 : env.open_fake_py = Except.ok ())
    (ls : List String) (h3 : env.read_pkg_init = Except.ok ls)
    (h4 : pkg_imported backend_name ls = true ∨ env.append_pkg_init = Except.ok ()) :
    (create_init_file env backend_name).ret = Except.ok true := by
  have hstep0 : (if env.dir_exists then Except.ok () else env.mkdir) = Except.ok () := by
    rcases h0 with hd | hm
    · rw [hd]
      rfl
    · by_cases hd : env.dir_exists <;> simp [hd, hm]
  rcases h4 with h4 | h4
  · simp [create_init_file, hstep0, h1, h2, h3, h4]
  · by_cases h5 : pkg_imported backend_name ls = true <;>
      simp [create_init_file, hstep0, h1, h2, h3, h4, h5]

theorem create_init_file_false_printed (env : Env) (backend_name : String)
    (h : (create_init_file env backend_name).ret = Except.ok false) :
    "Failed to create initializing scripts" ∈
      (create_init_file env backend_name).printed := by
  rcases h0 : (if env.dir_exists then Except.ok () else env.mkdir) with e | ⟨⟩
  · simp [create_init_file, h0]
  · rcases h1 : env.open_init_py with e | ⟨⟩
    · simp [create_init_file, h0, h1]
    · rcases h2 : env.open_fake_py with e | ⟨⟩
      · simp [create_init_file, h0, h1, h2]
      · rcases h3 : env.read_pkg_init with e | ls
        · simp [create_init_file, h0, h1, h2, h3]
        · by_cases h4 : pkg_imported backend_name ls = true
          · rw [create_init_file] at h
            simp [h0, h1, h2, h3, h4] at h
          · rcases h5 : env.append_pkg_init with e | ⟨⟩
            · simp [create_init_file, h0, h1, h2, h3, h4, h5]
            · rw [create_init_file] at h
              simp [h0, h1, h2, h3, h4, h5] at h

theorem create_conf_no_ioError (env : Env) (backend_name backend_version : String)
    (st : Option ℕ) (m : String) :
    (create_conf env backend_name backend_version st).ret ≠
      Except.error (PyExc.ioError m) := by
  rcases st with _ | n
  · simp [create_conf]
  · rcases h1 : env.read_gates_csv with e | gi
    · simp [create_conf, h1]
    · rcases h2 : conf_gates_loop env.std_gates (coupling_map_one gi)
        (coupling_map_two gi) (basis_gates_of gi) with e | gs
      · simp [create_conf, h1, h2]
      · rcases h3 : env.open_conf_json with e | ⟨⟩
        · simp [create_conf, h1, h2, h3]
        · simp [create_conf, h1, h2, h3]

theorem create_conf_read_error (env : Env) (backend_name backend_version : String)
    (n : ℕ) (e : String) (h : env.read_gates_csv = Except.error e) :
    (create_conf env backend_name backend_version (some n)).ret = Except.ok false ∧
    ("Failed to create props_" ++ backend_name ++ ".json") ∈
      (create_conf env backend_name backend_version (some n)).printed := by
  constructor <;> simp [create_conf, h]

theorem create_conf_write_error (env : Env) (backend_name backend_version : String)
    (n : ℕ) (gi : List GateRow) (gs : List GateConfig) (e : String)
    (h1 : env.read_gates_csv = Except.ok gi)
    (h2 : conf_gates_loop env.std_gates (coupling_map_one gi) (coupling_map_two gi)
      (basis_gates_of gi) = Except.ok gs)
    (h3 : env.open_conf_json = Except.error e) :
    (create_conf env backend_name backend_version (some n)).ret = Except.ok false ∧
    ("Failed to create props_" ++ backend_name ++ ".json") ∈
      (create_conf env backend_name backend_version (some n)).printed := by
  constructor <;> simp [create_conf, h1, h2, h3]

theorem create_conf_complete_true (env : Env) (backend_name backend_version : String)
    (n : ℕ) (gi : List GateRow) (gs : List GateConfig)
    (h1 : env.read_gates_csv = Except.ok gi)
    (h2 : conf_gates_loop env.std_gates (coupling_map_one gi) (coupling_map_two gi)
      (basis_gates_of gi) = Except.ok gs)
    (h3 : env.open_conf_json = Except.ok ()) :
    (create_conf env backend_name backend_version (some n)).ret = Except.ok true := by
  simp [create_conf, h1, h2, h3]

theorem create_conf_basis_eq (env : Env) (backend_name backend_version : String)
    (n : ℕ) (gi : List GateRow) (c : BackendConf)
    (h1 : env.read_gates_csv = Except.ok gi)
    (hc : (create_conf env backend_name backend_version (some n)).conf = some c) :
    c.basis_gates = basis_gates_of gi := by
  rcases h2 : conf_gates_loop env.std_gates (coupling_map_one gi) (coupling_map_two gi)
      (basis_gates_of gi) with e | gs
  · rw [create_conf] at hc
    simp [h1, h2] at hc
  · rcases h3 : env.open_conf_json with e | ⟨⟩
    · rw [create_conf] at hc
      simp [h1, h2, h3] at hc
    · rw [create_conf] at hc
      simp [h1, h2, h3] at hc
      subst hc
      rfl

/-- Claim C7: when any build step fails, the builder only prints and
continues: `build_from_file.__init__` invokes all three of
`create_init_file`, `create_props`, and `create_conf`, regardless of
whether an earlier step returned `False`, because `all((a, b, c))` builds
the Python tuple eagerly before testing it. -/
theorem build_invokes_all_steps (env : Env) (backend_name backend_version : String) :
    (build_from_file env backend_name backend_version).invoked =
      [BuildStep.init_file, BuildStep.props, BuildStep.conf] := by
  obtain ⟨b1, h1⟩ := create_init_file_ret_ok env backend_name
  obtain ⟨b2, h2⟩ := create_props_ret_ok env backend_name backend_version
  rcases h3 : (create_conf env backend_name backend_version
      (create_props env backend_name backend_version).n_qubits).ret with e | b3
  · simp [build_from_file, h1, h2, h3]
  · rcases b1 <;> rcases b2 <;> rcases b3 <;>
      simp [build_from_file, h1, h2, h3]

/-- Claim C5: each of `create_props`, `create_conf`, and
`create_init_file` returns `True` when it completes; a file I/O failure
is caught, a failure message is printed, and `False` is returned; and no
file I/O failure escapes these methods as an exception (the exceptions
that do escape `create_conf` — the `AttributeError` of a missing
`n_qubits` and the `ValueError` of the broken format string in the
`KeyError` handler — are not file I/O failures). -/
theorem build_steps_error_handling (env : Env) (backend_name backend_version : String)
    (n : ℕ) :
    (∀ e : PyExc, (create_props env backend_name backend_version).ret ≠ Except.error e) ∧
    (∀ e : PyExc, (create_init_file env backend_name).ret ≠ Except.error e) ∧
    (∀ m : String, (create_conf env backend_name backend_version (some n)).ret ≠
      Except.error (PyExc.ioError m)) ∧
    ((create_props env backend_name backend_version).ret = Except.ok true ↔
      ((∃ q, env.read_qubits_csv = Except.ok q) ∧
       (∃ g, env.read_gates_csv = Except.ok g) ∧
       env.open_props_json = Except.ok ())) ∧
    ((create_props env backend_name backend_version).ret = Except.ok false →
      ("Failed to create props_" ++ backend_name ++ ".json") ∈
        (create_props env backend_name backend_version).printed) ∧
    ((create_init_file env backend_name).ret = Except.ok false →
      "Failed to create initializing scripts" ∈
        (create_init_file env backend_name).printed) ∧
    ((env.dir_exists = true ∨ env.mkdir = Except.ok ()) →
      env.open_init_py = Except.ok () →
      env.open_fake_py = Except.ok () →
      ∀ ls, env.read_pkg_init = Except.ok ls →
      (pkg_imported backend_name ls = true ∨ env.append_pkg_init = Except.ok ()) →
      (create_init_file env backend_name).ret = Except.ok true) ∧
    (∀ e : String, env.read_gates_csv = Except.error e →
      (create_conf env backend_name backend_version (some n)).ret = Except.ok false ∧
      ("Failed to create props_" ++ backend_name ++ ".json") ∈
        (create_conf env backend_name backend_version (some n)).printed) ∧
    (∀ (gi : List GateRow) (gs : List GateConfig) (e : String),
      env.read_gates_csv = Except.ok gi →
      conf_gates_loop env.std_gates (coupling_map_one gi) (coupling_map_two gi)
        (basis_gates_of gi) = Except.ok gs →
      env.open_conf_json = Except.error e →
      (create_conf env backend_name backend_version (some n)).ret = Except.ok false ∧
      ("Failed to create props_" ++ backend_name ++ ".json") ∈
        (create_conf env backend_name backend_version (some n)).printed) ∧
    (∀ (gi : List GateRow) (gs : List GateConfig),
      env.read_gates_csv = Except.ok gi →
      conf_gates_loop env.std_gates (coupling_map_one gi) (coupling_map_two gi)
        (basis_gates_of gi) = Except.ok gs →
      env.open_conf_json = Except.ok () →
      (create_conf env backend_name backend_version (some n)).ret = Except.ok true) := by
  refine ⟨?_, ?_, create_conf_no_ioError env backend_name backend_version (some n),
    create_props_ok_true_iff env backend_name backend_version,
    create_props_false_printed env backend_name backend_version,
    create_init_file_false_printed env backend_name,
    fun h0 h1 h2 ls h3 h4 =>
      create_init_file_complete_true env backend_name h0 h1 h2 ls h3 h4,
    fun e he => create_conf_read_error env backend_name backend_version n e he,
    fun gi gs e hg hl ho =>
      create_conf_write_error env backend_name backend_version n gi gs e hg hl ho,
    fun gi gs hg hl ho =>
      create_conf_complete_true env backend_name backend_version n gi gs hg hl ho⟩
  · intro e
    obtain ⟨b, hb⟩ := create_props_ret_ok env backend_name backend_version
    simp [hb]
  · intro e
    obtain ⟨b, hb⟩ := create_init_file_ret_ok env backend_name
    simp [hb]

/-- Sample qubit-CSV row used by the concrete witnesses. -/
def sampleQubitRow : QubitRow :=
  QubitRow.mk 1 "d" 1 "d" 1 "d" 0 "d" 0 "d" 0 "d" 1 "d"

/-- Sample gate-CSV row used by the concrete witnesses. -/
def sampleGateRow : GateRow := GateRow.mk [0] "rx" 0 "d" 1 "d" "rx0"

/-- Sample SDK gate-table entry used by the concrete witnesses. -/
def sampleStdGate : StdGate := StdGate.mk "rx" 1 ["theta"] "rx(theta)"

/-- Environment in which every file operation succeeds and every gate
name is present in the SDK table. -/
def envOK : Env :=
  Env.mk true (Except.ok ()) (Except.ok ()) (Except.ok ()) (Except.ok [])
    (Except.ok ()) (Except.ok [sampleQubitRow]) (Except.ok [sampleGateRow])
    (Except.ok ()) (Except.ok ()) (fun _ => some sampleStdGate)

/-- Witness for C5 in the all-successful environment `envOK`. -/
theorem build_steps_error_handling_witness :
    ((create_props envOK "Huayi" "1.0").ret ≠ Except.error (PyExc.ioError "boom")) ∧
    ((create_init_file envOK "Huayi").ret ≠ Except.error (PyExc.ioError "boom")) ∧
    ((create_conf envOK "Huayi" "1.0" (some 1)).ret ≠
      Except.error (PyExc.ioError "boom")) ∧
    ((create_props envOK "Huayi" "1.0").ret = Except.ok true) ∧
    ((create_init_file envOK "Huayi").ret = Except.ok true) ∧
    ((create_conf envOK "Huayi" "1.0" (some 1)).ret = Except.ok true) :=
  ⟨(build_steps_error_handling envOK "Huayi" "1.0" 1).1 (PyExc.ioError "boom"),
   (build_steps_error_handling envOK "Huayi" "1.0" 1).2.1 (PyExc.ioError "boom"),
   (build_steps_error_handling envOK "Huayi" "1.0" 1).2.2.1 "boom",
   (build_steps_error_handling envOK "Huayi" "1.0" 1).2.2.2.1.mpr
     ⟨⟨[sampleQubitRow], rfl⟩, ⟨[sampleGateRow], rfl⟩, rfl⟩,
   (build_steps_error_handling envOK "Huayi" "1.0" 1).2.2.2.2.2.2.1
     (Or.inl rfl) rfl rfl [] rfl (Or.inr rfl),
   (build_steps_error_handling envOK "Huayi" "1.0" 1).2.2.2.2.2.2.2.2.2
     [sampleGateRow] _ rfl rfl rfl⟩

/-- Claim C6 describes the intent of the `except KeyError` handler, but
the code does not realize it: when the gates CSV contains a gate name
absent from the SDK gate table, the handler's `str.format` call raises
`ValueError` (lone closing brace in the format string at line 155), which
escapes `create_conf` uncaught — no message naming the gate is printed,
`False` is not returned, and the configuration JSON file is not
written. -/
theorem create_conf_missing_gate_raises (env : Env) (backend_name backend_version : String)
    (n : ℕ) (gi : List GateRow) (hread : env.read_gates_csv = Except.ok gi)
    (hmiss : ∃ g ∈ gi.map (fun r => r.gate), env.std_gates g = none) :
    (create_conf env backend_name backend_version (some n)).ret =
      Except.error (PyExc.valueError "Single \x27\x7d\x27 encountered in format string") ∧
    (create_conf env backend_name backend_version (some n)).printed = [] ∧
    (create_conf env backend_name backend_version (some n)).conf = none := by
  obtain ⟨g, hgmem, hgnone⟩ := hmiss
  have hbg : g ∈ basis_gates_of gi := (mem_basis_gates_of gi g).mpr (Or.inl hgmem)
  obtain ⟨g0, hloop, hg0mem, hg0none⟩ :=
    conf_gates_loop_error_of_missing env.std_gates (coupling_map_one gi)
      (coupling_map_two gi) (basis_gates_of gi) ⟨g, hbg, hgnone⟩
  refine ⟨?_, ?_, ?_⟩ <;> simp [create_conf, hread, hloop]

/-- Environment in which the file operations succeed but the SDK gate
table is empty, so every gate lookup fails. -/
def envNoGates : Env :=
  Env.mk true (Except.ok ()) (Except.ok ()) (Except.ok ()) (Except.ok [])
    (Except.ok ()) (Except.ok [sampleQubitRow]) (Except.ok [sampleGateRow])
    (Except.ok ()) (Except.ok ()) (fun _ => none)

/-- Witness for the C6 divergence in the environment with an empty SDK
gate table: the `ValueError` escapes, nothing is printed, and no
configuration is written. -/
theorem create_conf_missing_gate_raises_witness :
    (envNoGates.read_gates_csv = Except.ok [sampleGateRow]) ∧
    (∃ g ∈ [sampleGateRow].map (fun r => r.gate), envNoGates.std_gates g = none) ∧
    ((create_conf envNoGates "Huayi" "1.0" (some 1)).ret =
       Except.error (PyExc.valueError "Single \x27\x7d\x27 encountered in format string") ∧
     (create_conf envNoGates "Huayi" "1.0" (some 1)).printed = [] ∧
     (create_conf envNoGates "Huayi" "1.0" (some 1)).conf = none) :=
  ⟨rfl, ⟨"rx", by simp [sampleGateRow], rfl⟩,
    create_conf_missing_gate_raises envNoGates "Huayi" "1.0" 1 [sampleGateRow] rfl
      ⟨"rx", by simp [sampleGateRow], rfl⟩⟩

/-- Claim C10: whenever `create_conf` succeeds in writing a
configuration, its `basis_gates` list contains `"id"` and `"reset"`,
contains each distinct value of the gate column of the CSV exactly once,
and contains nothing else. -/
theorem create_conf_basis_gates_spec (env : Env) (backend_name backend_version : String)
    (n : ℕ) (gi : List GateRow) (c : BackendConf)
    (hread : env.read_gates_csv = Except.ok gi)
    (hconf : (create_conf env backend_name backend_version (some n)).conf = some c) :
    "id" ∈ c.basis_gates ∧ "reset" ∈ c.basis_gates ∧
    (∀ g ∈ gi.map (fun r => r.gate), c.basis_gates.count g = 1) ∧
    (∀ g ∈ c.basis_gates, g ∈ gi.map (fun r => r.gate) ∨ g = "id" ∨ g = "reset") := by
  have hbg : c.basis_gates = basis_gates_of gi :=
    create_conf_basis_eq env backend_name backend_version n gi c hread hconf
  rw [hbg]
  refine ⟨(mem_basis_gates_of gi "id").mpr (Or.inr (Or.inl rfl)),
    (mem_basis_gates_of gi "reset").mpr (Or.inr (Or.inr rfl)), ?_, ?_⟩
  · intro g hg
    exact List.count_eq_one_of_mem (nodup_basis_gates_of gi)
      ((mem_basis_gates_of gi g).mpr (Or.inl hg))
  · intro g hg
    exact (mem_basis_gates_of gi g).mp hg

/-- Witness for C10 in the all-successful environment `envOK`. -/
theorem create_conf_basis_gates_spec_witness :
    (envOK.read_gates_csv = Except.ok [sampleGateRow]) ∧
    ((create_conf envOK "Huayi" "1.0" (some 1)).conf = some
      (BackendConf.mk "Huayi" "1.0" 1 ["rx", "id", "reset"]
        [GateConfig.mk "rx" ["theta"] "rx(theta)" [[0]],
         GateConfig.mk "rx" ["theta"] "rx(theta)" [[0]],
         GateConfig.mk "rx" ["theta"] "rx(theta)" [[0]]] [])) ∧
    ("id" ∈ (BackendConf.mk "Huayi" "1.0" 1 ["rx", "id", "reset"]
        [GateConfig.mk "rx" ["theta"] "rx(theta)" [[0]],
         GateConfig.mk "rx" ["theta"] "rx(theta)" [[0]],
         GateConfig.mk "rx" ["theta"] "rx(theta)" [[0]]] []).basis_gates ∧
     "reset" ∈ (BackendConf.mk "Huayi" "1.0" 1 ["rx", "id", "reset"]
        [GateConfig.mk "rx" ["theta"] "rx(theta)" [[0]],
         GateConfig.mk "rx" ["theta"] "rx(theta)" [[0]],
         GateConfig.mk "rx" ["theta"] "rx(theta)" [[0]]] []).basis_gates ∧
     (∀ g ∈ [sampleGateRow].map (fun r => r.gate),
       ((BackendConf.mk "Huayi" "1.0" 1 ["rx", "id", "reset"]
        [GateConfig.mk "rx" ["theta"] "rx(theta)" [[0]],
         GateConfig.mk "rx" ["theta"] "rx(theta)" [[0]],
         GateConfig.mk "rx" ["theta"] "rx(theta)" [[0]]] []).basis_gates).count g = 1) ∧
     (∀ g ∈ (BackendConf.mk "Huayi" "1.0" 1 ["rx", "id", "reset"]
        [GateConfig.mk "rx" ["theta"] "rx(theta)" [[0]],
         GateConfig.mk "rx" ["theta"] "rx(theta)" [[0]],
         GateConfig.mk "rx" ["theta"] "rx(theta)" [[0]]] []).basis_gates,
       g ∈ [sampleGateRow].map (fun r => r.gate) ∨ g = "id" ∨ g = "reset")) :=
  ⟨rfl, rfl,
    create_conf_basis_gates_spec envOK "Huayi" "1.0" 1 [sampleGateRow] _ rfl rfl⟩

end BackendBuild
